import Mathlib

/-!
A shallow embedding of `Float2QB.py` (the CSV → QuickBooks batch importer):
record normalization, key verification, reference-data pre-check, transaction
classification and building, and response reconciliation, together with
theorems settling the specification's claims about them.

Conventions of the embedding:
* A CSV record (the output of `csv.DictReader` after `KeysLower`) is an
  association list from column name to cell value.
* Python `float(s)` is modelled for plain decimal literals (optional sign,
  digits, at most one point); `inf`/`nan`/exponents/whitespace are out of the
  claims' scope.
* A Python exception that escapes to the `except` at the bottom of
  `ProcessFile` is modelled as `Except.error`; a logged-and-skipped record is
  `.ok none`.
* Amounts are exact rationals; the claims under study concern which line items
  exist and which input values flow to them, not binary rounding.
-/

namespace Float2QB

/-- A CSV record: association list from column name to cell value. -/
abbrev Rec := List (String × String)

/-- Python `t.get(k)` as an `Option`: first binding of key `k`, if any. -/
def dget? (r : Rec) (k : String) : Option String :=
  (List.find? (fun p => p.1 == k) r).map (fun p => p.2)

/-- Python `t[k]` under the documented batch-shape precondition that every
record carries the same columns as the first (spec §3).  A missing key would
raise `KeyError` in Python; here it yields `""`, which the theorems never
rely on. -/
def dget (r : Rec) (k : String) : String := (dget? r k).getD ""

/-- Python `k in t` for a record. -/
def hasKey (r : Rec) (k : String) : Bool := (dget? r k).isSome

/-- `KeysLower` (Float2QB.py line 22): case-folds the keys; values are
untouched (CSV cell values are strings, so the recursive dict case of the
source is vacuous here). -/
def KeysLower (r : Rec) : Rec :=
  r.map (fun p => (String.mk (p.1.data.map Char.toLower), p.2))

/-! ### Numeric and date parsing

String scanning is done on the character list so that every definition
evaluates by kernel reduction. -/

/-- Split a character list at every occurrence of `c` (the separator is
dropped), like Python `s.split(c)`. -/
def splitOnChar (c : Char) : List Char → List (List Char)
  | [] => [[]]
  | x :: xs =>
      match splitOnChar c xs with
      | h :: t => if x == c then [] :: h :: t else (x :: h) :: t
      | [] => if x == c then [[], []] else [[x]]

def digitVal (c : Char) : Nat := c.toNat - '0'.toNat

def natOfDigits (l : List Char) : Nat := l.foldl (fun a c => 10 * a + digitVal c) 0

def isDigits (l : List Char) : Bool := !l.isEmpty && l.all (fun c => c.isDigit)

/-- Model of Python `float(s)` restricted to plain decimal literals: optional
sign, then digits containing at most one point and at least one digit
(`"1."` and `".5"` are accepted; `""`, `"."`, `"N/A"` are not). -/
def pyFloat? (s : String) : Option ℚ :=
  let signBody : Int × List Char :=
    match s.data with
    | '-' :: rest => (-1, rest)
    | '+' :: rest => (1, rest)
    | cs => (1, cs)
  match splitOnChar '.' signBody.2 with
  | [ip] =>
      if isDigits ip then some (Rat.divInt (signBody.1 * natOfDigits ip) 1) else none
  | [ip, fp] =>
      if ip.all (fun c => c.isDigit) && fp.all (fun c => c.isDigit)
          && !(ip.isEmpty && fp.isEmpty) then
        some (Rat.divInt (signBody.1 * natOfDigits (ip ++ fp)) ((10 : Int) ^ fp.length))
      else none
  | _ => none

/-- Recognizer for `"%H:%M:%S"` with two-digit components in range. -/
def timeOk (t : List Char) : Bool :=
  match splitOnChar ':' t with
  | [h, m, s] =>
      isDigits h && h.length == 2 && natOfDigits h ≤ 23 &&
      isDigits m && m.length == 2 && natOfDigits m ≤ 59 &&
      isDigits s && s.length == 2 && natOfDigits s ≤ 61
  | _ => false

/-- Recognizer for a `%z` UTC offset: `Z`, `±HHMM` or `±HH:MM`. -/
def tzOk (z : List Char) : Bool :=
  z == ['Z'] ||
  (match z with
   | sgn :: b =>
       (sgn == '+' || sgn == '-') &&
       ((b.length == 4 && isDigits b) ||
        (match splitOnChar ':' b with
         | [h, m] => h.length == 2 && isDigits h && m.length == 2 && isDigits m
         | _ => false))
   | [] => false)

/-- Recognizer for the `%f%z` tail: one to six fractional digits, then an
offset. -/
def fracTzOk (s : List Char) : Bool :=
  let f := s.takeWhile (fun c => c.isDigit)
  let z := s.dropWhile (fun c => c.isDigit)
  1 ≤ f.length && f.length ≤ 6 && tzOk z

/-- Recognizer for `datetime.strptime(s, "%Y-%m-%d %H:%M:%S.%f%z")` succeeding
(Float2QB.py line 268).  Shape and field ranges are checked; exact calendar
validity (e.g. day count per month) is not, which is immaterial to the
claims, whose inputs are either well-formed dates or non-dates. -/
def txDateOk (s : String) : Bool :=
  match splitOnChar ' ' s.data with
  | [d, t] =>
      (match splitOnChar '-' d with
       | [y, mo, da] =>
           isDigits y && y.length == 4 &&
           isDigits mo && mo.length ≤ 2 && 1 ≤ natOfDigits mo && natOfDigits mo ≤ 12 &&
           isDigits da && da.length ≤ 2 && 1 ≤ natOfDigits da && natOfDigits da ≤ 31
       | _ => false) &&
      (match splitOnChar '.' t with
       | [hms, ftz] => timeOk hms && fracTzOk ftz
       | _ => false)
  | _ => false

/-- Recognizer for `datetime.strptime(s, "%d/%m/%Y")` succeeding
(Float2QB.py line 355). -/
def reimbDateOk (s : String) : Bool :=
  match splitOnChar '/' s.data with
  | [d, m, y] =>
      isDigits d && d.length ≤ 2 && 1 ≤ natOfDigits d && natOfDigits d ≤ 31 &&
      isDigits m && m.length ≤ 2 && 1 ≤ natOfDigits m && natOfDigits m ≤ 12 &&
      isDigits y && y.length == 4
  | _ => false

/-- Python `s.strip()`: whitespace removed from both ends. -/
def pyStrip (s : String) : String :=
  String.mk (((s.data.dropWhile Char.isWhitespace).reverse.dropWhile
    Char.isWhitespace).reverse)

/-! ### Batch shape detection (ProcessFile lines 405-415) -/

/-- Python truthiness of the `maxSplits` value (`if maxSplits:`): false for
`None` and for `0`. -/
def truthy : Option Nat → Bool
  | none => false
  | some n => n != 0

/-- Python `s > ""`: true exactly for non-empty strings. -/
def strGtEmpty (s : String) : Bool := s != ""

/-- The column name `f"line item {i} {suffix}"`. -/
def splitKey (i : Nat) (suffix : String) : String :=
  "line item " ++ toString i ++ " " ++ suffix

/-- `re.match(r"^line item (\d+)", key)`: the prefix `"line item "` followed by
at least one digit; the capture is the maximal digit run. -/
def splitIndex? (key : String) : Option Nat :=
  if "line item ".data.isPrefixOf key.data then
    let ds := (key.data.drop 10).takeWhile (fun c => c.isDigit)
    if ds.isEmpty then none else some (natOfDigits ds)
  else none

/-- Whether the batch is a reimbursement batch (line 405): the first record
has a `report name` column. -/
def batchReimb (first : Rec) : Bool := hasKey first "report name"

/-- `maxSplits` detection over the first record's column names
(lines 413-415): `max(splits) if splits else None`. -/
def detectMaxSplits (firstLine : Rec) : Option Nat :=
  match firstLine.filterMap (fun p => splitIndex? p.1) with
  | [] => none
  | s :: rest => some (rest.foldl Nat.max s)

/-- The `maxSplits` ProcessFile passes downstream (lines 405-415): `None` for
reimbursement batches, otherwise the detected maximum split index. -/
def batchMaxSplits (first : Rec) : Option Nat :=
  if batchReimb first then none else detectMaxSplits first

/-! ### VerifyCSVKeys (lines 54-107) -/

/-- The required key list `VerifyCSVKeys` assembles for the batch kind. -/
def requiredKeys (reimbursement : Bool) (maxSplits : Option Nat) : List String :=
  ["description"] ++
  (if reimbursement then
    ["expense date", "total", "subtotal", "tax", "requester", "gl code id"]
  else
    ["transaction date", "accounting vendor name", "total dollars",
     "transaction subtotal dollars", "transaction tax dollars", "gl code id"] ++
    (if truthy maxSplits then
      (List.range' 1 (maxSplits.getD 0)).flatMap (fun i =>
        [splitKey i "gl code id", splitKey i "description",
         splitKey i "amount", splitKey i "tax amount"])
    else []))

/-- `VerifyCSVKeys`: false on an empty batch or when the first record misses a
required key. -/
def VerifyCSVKeys (transactions : List Rec) (reimbursement : Bool)
    (maxSplits : Option Nat) : Bool :=
  match transactions with
  | [] => false
  | first :: _ => (requiredKeys reimbursement maxSplits).all (fun k => hasKey first k)

/-! ### PreCheck (lines 109-139) -/

/-- The reference data loaded from QuickBooks at the start of the run
(`LoadListsFromQB`). -/
structure Snapshot where
  validAccounts : List String
  validVendors : List String
  deriving Repr, DecidableEq

/-- One violation logged by `PreCheck` via `Error(...)`. -/
inductive Viol where
  | badVendor (field : String) (value : String)
  | badAccount (value : String) (vendor : String)
  | badSplitAccount (value : String) (idx : Nat) (vendor : String)
  deriving Repr, DecidableEq

/-- The payee-name column `PreCheck` checks (line 120). -/
def vendorField (reimbursement : Bool) : String :=
  if reimbursement then "requester" else "accounting vendor name"

/-- The payee name a record references. -/
def recPayee (reimbursement : Bool) (t : Rec) : String :=
  dget t (vendorField reimbursement)

/-- The violation `PreCheck`'s vendor check logs for one record
(lines 124-126). -/
def vendorViols (snap : Snapshot) (reimbursement : Bool) (t : Rec) : List Viol :=
  if !snap.validVendors.contains (recPayee reimbursement t) then
    [Viol.badVendor (vendorField reimbursement) (recPayee reimbursement t)]
  else []

/-- The violations `PreCheck`'s account checks log for one record: the
per-split checks when the record is treated as split (lines 128-133), else
the single `gl code id` check (lines 134-137). -/
def accountViols (snap : Snapshot) (reimbursement : Bool) (maxSplits : Option Nat)
    (t : Rec) : List Viol :=
  if truthy maxSplits && dget t "line item 1 amount" != "" then
    (List.range' 1 (maxSplits.getD 0)).flatMap (fun i =>
      if dget t (splitKey i "amount") != "" &&
          !snap.validAccounts.contains (dget t (splitKey i "gl code id")) then
        [Viol.badSplitAccount (dget t (splitKey i "gl code id")) i
          (recPayee reimbursement t)]
      else [])
  else
    if !snap.validAccounts.contains (dget t "gl code id") then
      [Viol.badAccount (dget t "gl code id") (recPayee reimbursement t)]
    else []

/-- The violations `PreCheck` logs for one record, in source order: the
vendor check, then the account checks. -/
def recViols (snap : Snapshot) (reimbursement : Bool) (maxSplits : Option Nat)
    (t : Rec) : List Viol :=
  vendorViols snap reimbursement t ++ accountViols snap reimbursement maxSplits t

/-- All violations `PreCheck` logs over the batch, in order. -/
def PreCheckViols (snap : Snapshot) (transactions : List Rec)
    (reimbursement : Bool) (maxSplits : Option Nat) : List Viol :=
  transactions.flatMap (recViols snap reimbursement maxSplits)

/-- `PreCheck`'s boolean result: `good` stays true exactly when no violation
was logged. -/
def PreCheck (snap : Snapshot) (transactions : List Rec)
    (reimbursement : Bool) (maxSplits : Option Nat) : Bool :=
  (PreCheckViols snap transactions reimbursement maxSplits).isEmpty

/-- The account identifiers `PreCheck` checks for one record: the accounts of
split slots with a non-blank amount when the record is treated as split
(`maxSplits` truthy and `line item 1 amount` non-blank), else the single
`gl code id`. -/
def checkedAccounts (maxSplits : Option Nat) (t : Rec) : List String :=
  if truthy maxSplits && dget t "line item 1 amount" != "" then
    (List.range' 1 (maxSplits.getD 0)).filterMap (fun i =>
      if dget t (splitKey i "amount") != "" then
        some (dget t (splitKey i "gl code id"))
      else none)
  else [dget t "gl code id"]

/-- The slot indices among `1..n` whose `gl code id` is non-blank, the slots
the builder's split loop expands, with the slot fields given as functions of
the index (used to state the split-expansion claims). -/
def activeSlots (gl : Nat → String) (n : Nat) : List Nat :=
  (List.range' 1 n).filter (fun i => gl i != "")

/-! ### Transaction building (ProcessTransactions, lines 257-343, and
ProcessReimbursements, lines 345-390) -/

/-- A Python exception escaping to the `except` at the bottom of
`ProcessFile` (line 443). -/
inductive PyErr where
  | valueError
  | indexError
  deriving Repr, DecidableEq

instance {ε α : Type} [DecidableEq ε] [DecidableEq α] : DecidableEq (Except ε α)
  | .ok a, .ok b =>
      if h : a = b then .isTrue (by rw [h]) else .isFalse (by simpa using h)
  | .ok _, .error _ => .isFalse (by simp)
  | .error _, .ok _ => .isFalse (by simp)
  | .error a, .error b =>
      if h : a = b then .isTrue (by rw [h]) else .isFalse (by simpa using h)

/-- The dict appended to `lineItems` (lines 279-284 / 296-301). -/
structure SrcItem where
  description : String
  total : ℚ
  tax : ℚ
  glcode : String
  deriving Repr, DecidableEq

/-- One line written to the request (account, amount, memo). -/
structure LineItem where
  account : String
  amount : ℚ
  memo : String
  deriving Repr, DecidableEq

/-- An in-memory transaction draft appended to the request message set. -/
inductive Draft where
  | deposit (toAccount : String) (date : String) (memo : String) (lines : List LineItem)
  | cheque (bankAccount : String) (date : String) (payee : String) (memo : String)
      (lines : List LineItem)
  | bill (apAccount : String) (date : String) (vendor : String) (memo : String)
      (lines : List LineItem)
  deriving Repr, DecidableEq

/-- `float(s)` raising `ValueError` on failure. -/
def pyFloatE (s : String) : Except PyErr ℚ :=
  match pyFloat? s with
  | some q => .ok q
  | none => .error .valueError

/-- `float(trans.get(k, 0))`: a missing key yields the default `0`; a present
but non-numeric value raises `ValueError`. -/
def getFloatD (t : Rec) (k : String) : Except PyErr ℚ :=
  match dget? t k with
  | some s => pyFloatE s
  | none => .ok 0

/-- The synthesized tax line (lines 333-337 / 380-384). -/
def taxLine (tax : ℚ) : LineItem :=
  { account := "GST Accounts Receivable", amount := tax, memo := "Half of the GST" }

/-- The expense line written for one `lineItems` entry (lines 327-331):
account from the item's gl code, amount from its total, memo from its
description. -/
def itemLine (it : SrcItem) : LineItem :=
  { account := it.glcode, amount := it.total, memo := it.description }

/-- The split loop of ProcessTransactions (lines 287-301), processing slots
`1..n` in order: a slot exists when its `gl code id` is non-blank
(line 289); its amount is `float(trans.get(f"line item {item} amount", 0))`.
The tax lookup at line 293 uses the key `"line item {item} tax Amount"`
with a capital `A`; `KeysLower` lowercases every column name, so that lookup
always misses and `splitTax` is always `float(0) = 0`. -/
def splitItems (t : Rec) : Nat → Except PyErr (List SrcItem)
  | 0 => .ok []
  | n + 1 =>
      match splitItems t n with
      | .error e => .error e
      | .ok prev =>
          if strGtEmpty (dget t (splitKey (n + 1) "gl code id")) then
            match getFloatD t (splitKey (n + 1) "amount") with
            | .error e => .error e
            | .ok splitTotal =>
                .ok (prev ++ [{ description := dget t (splitKey (n + 1) "description"),
                                total := splitTotal, tax := 0,
                                glcode := dget t (splitKey (n + 1) "gl code id") }])
          else
            .ok prev

/-- The `lineItems` a standard record yields (lines 275-301): the single
primary item when the batch has no splits or this record's `gl code id` is
non-blank, else the split expansion. -/
def lineItemsOf (maxSplits : Option Nat) (t : Rec) (trnsTotal trnsTax : ℚ) :
    Except PyErr (List SrcItem) :=
  if !truthy maxSplits || strGtEmpty (dget t "gl code id") then
    .ok [{ description := dget t "description", total := trnsTotal,
           tax := trnsTax, glcode := dget t "gl code id" }]
  else
    splitItems t (maxSplits.getD 0)

/-- The body of ProcessTransactions' loop for one record (lines 267-339):
`.error` models an uncaught exception (there is no try/except in this
function), `.ok none` the logged-and-skipped empty-line-items case
(lines 303-305), `.ok (some d)` a draft appended to the request. -/
def buildTx (maxSplits : Option Nat) (t : Rec) : Except PyErr (Option Draft) :=
  if !txDateOk (dget t "transaction date") then .error .valueError
  else
    let trnsDate := dget t "transaction date"
    let trnsMerch := dget t "accounting vendor name"
    match pyFloatE (dget t "transaction subtotal dollars") with
    | .error e => .error e
    | .ok trnsTotal =>
        let trnsGlcode := dget t "gl code id"
        match pyFloatE (dget t "transaction tax dollars") with
        | .error e => .error e
        | .ok trnsTax =>
            let trnsDesc := dget t "description"
            match lineItemsOf maxSplits t trnsTotal trnsTax with
            | .error e => .error e
            | .ok lineItems =>
                if lineItems.isEmpty then .ok none
                else if trnsTotal < 0 then
                  -- `-1 * trnsTotal` of the source (line 317), as exact negation
                  .ok (some (Draft.deposit "Float Financial" trnsDate trnsDesc
                    [{ account := trnsGlcode, amount := -trnsTotal, memo := "" }]))
                else
                  .ok (some (Draft.cheque "Float Financial" trnsDate trnsMerch
                    trnsDesc (lineItems.map itemLine ++
                      (if trnsTax ≠ 0 then [taxLine trnsTax] else []))))

/-- The body of ProcessReimbursements' loop for one record (lines 354-386):
the date parse (line 355) is outside the `try`, so its failure is an
uncaught exception; the three `float` conversions (lines 362-364) are inside
`try/except ValueError`, whose handler logs and skips the record. -/
def buildReimb (t : Rec) : Except PyErr (Option Draft) :=
  if !reimbDateOk (dget t "expense date") then .error .valueError
  else
    let trnsDate := dget t "expense date"
    let trnsDesc := pyStrip (dget t "description")
    let trnsMerch := dget t "requester"
    let trnsGlcode := dget t "gl code id"
    match getFloatD t "total", getFloatD t "subtotal", getFloatD t "tax" with
    | .ok _, .ok trnsSubtotal, .ok trnsTax =>
        .ok (some (Draft.bill "Accounts Payable" trnsDate trnsMerch trnsDesc
          ([{ account := trnsGlcode, amount := trnsSubtotal, memo := trnsDesc }] ++
            (if trnsTax ≠ 0 then [taxLine trnsTax] else []))))
    | _, _, _ =>
        .ok none

/-- The loop of either processing function: threads `(count, drafts)` through
the records, skipping `.ok none` records and propagating exceptions. -/
def processLoop (build : Rec → Except PyErr (Option Draft)) :
    List Rec → Nat × List Draft → Except PyErr (Nat × List Draft)
  | [], acc => .ok acc
  | t :: ts, acc =>
      match build t with
      | .error e => .error e
      | .ok none => processLoop build ts acc
      | .ok (some d) => processLoop build ts (acc.1 + 1, acc.2 ++ [d])

/-- `ProcessTransactions` up to its `DoRequests` call: the processed count and
the ordered drafts appended to the request message set. -/
def ProcessTransactions (maxSplits : Option Nat) (transactions : List Rec) :
    Except PyErr (Nat × List Draft) :=
  processLoop (buildTx maxSplits) transactions (0, [])

/-- `ProcessReimbursements` up to its `DoRequests` call. -/
def ProcessReimbursements (transactions : List Rec) :
    Except PyErr (Nat × List Draft) :=
  processLoop buildReimb transactions (0, [])

/-! ### WalkRs (lines 142-167) -/

/-- Tags of `qb.ENResponseType` for the three handled response kinds; the
numerals stand for the external SDK's enum values, of which only
distinctness is used. -/
def rtDepositAddRs : Int := 0

def rtCheckAddRs : Int := 1

def rtBillAddRs : Int := 2

/-- One element of the response message set's response list. -/
structure Resp where
  statusCode : Int
  statusSeverity : String
  statusMessage : String
  rtype : Int
  hasDetail : Bool
  deriving Repr, DecidableEq

/-- What `WalkRs` does with one response, beyond updating `Success`. -/
inductive WalkEvent where
  | statusError
  | walkedDeposit
  | walkedCheck
  | walkedBill
  | unknownType
  deriving Repr, DecidableEq

/-- The body of `WalkRs`' loop for one response (lines 149-166): the
contribution to `Success` and the logging/walking actions taken.  The first
`if` (line 150) logs and fails on a positive status; the second (line 153)
fires when the status is non-negative and a detail is present, walking the
detail for a recognized type and logging a failure for an unknown one. -/
def walkOne (r : Resp) : Bool × List WalkEvent :=
  let first : Bool × List WalkEvent :=
    if r.statusCode > 0 then (false, [WalkEvent.statusError]) else (true, [])
  let second : Bool × List WalkEvent :=
    if 0 ≤ r.statusCode then
      if r.hasDetail then
        if r.rtype = rtDepositAddRs then (true, [WalkEvent.walkedDeposit])
        else if r.rtype = rtCheckAddRs then (true, [WalkEvent.walkedCheck])
        else if r.rtype = rtBillAddRs then (true, [WalkEvent.walkedBill])
        else (false, [WalkEvent.unknownType])
      else (true, [])
    else (true, [])
  (first.1 && second.1, first.2 ++ second.2)

/-- Whether one response leaves `Success` untouched. -/
def respOk (r : Resp) : Bool := (walkOne r).1

/-- The actions `WalkRs` takes on one response. -/
def walkEvents (r : Resp) : List WalkEvent := (walkOne r).2

/-- `WalkRs`: `True` when the response list is `None` (line 146), else the
conjunction of the per-response contributions via the mutated `Success`. -/
def WalkRs : Option (List Resp) → Bool
  | none => true
  | some rs => rs.foldl (fun s r => s && respOk r) true

/-! ### ProcessFile (lines 393-444) -/

/-- Observable shape of one run of `ProcessFile`: which stages ran and how
they ended.  `fatal` is the exception reported by the `except` at line 443;
`keysOk`/`validated` are `none` when the stage never ran; `submitted` is
whether `DoRequests` was reached; `offeredDelete` is whether the
delete-the-input-file confirmation was offered (line 438). -/
structure RunTrace where
  fatal : Option PyErr
  keysOk : Option Bool
  validated : Option Bool
  drafts : List Draft
  count : Nat
  submitted : Bool
  walkOk : Option Bool
  offeredDelete : Bool
  deriving Repr, DecidableEq

/-- `ProcessFile` after the CSV has been read into `transactions`
(line 403 applies `KeysLower` to every record).  `submit` stands for the
external system's `DoRequests` at the single submission call. -/
def ProcessFileFrom (snap : Snapshot) (submit : List Draft → Option (List Resp))
    (transactions : List Rec) : RunTrace :=
  match transactions with
  | [] =>
      -- `"report name" in transactions[0]` (line 405) raises IndexError,
      -- caught by the except at line 443 before any stage runs
      { fatal := some .indexError, keysOk := none, validated := none,
        drafts := [], count := 0, submitted := false, walkOk := none,
        offeredDelete := false }
  | first :: _ =>
      let reimbursement := batchReimb first
      let maxSplits := batchMaxSplits first
      if !VerifyCSVKeys transactions reimbursement maxSplits then
        { fatal := none, keysOk := some false, validated := none,
          drafts := [], count := 0, submitted := false, walkOk := none,
          offeredDelete := false }
      else if !PreCheck snap transactions reimbursement maxSplits then
        { fatal := none, keysOk := some true, validated := some false,
          drafts := [], count := 0, submitted := false, walkOk := none,
          offeredDelete := false }
      else
        match (if reimbursement then ProcessReimbursements transactions
               else ProcessTransactions maxSplits transactions) with
        | .error e =>
            { fatal := some e, keysOk := some true, validated := some true,
              drafts := [], count := 0, submitted := false, walkOk := none,
              offeredDelete := false }
        | .ok (count, drafts) =>
            let ok := WalkRs (submit drafts)
            { fatal := none, keysOk := some true, validated := some true,
              drafts := drafts, count := count, submitted := true,
              walkOk := some ok, offeredDelete := ok }

/-- The whole run on the raw records read from the CSV. -/
def ProcessFile (snap : Snapshot) (submit : List Draft → Option (List Resp))
    (rawRecords : List Rec) : RunTrace :=
  ProcessFileFrom snap submit (rawRecords.map KeysLower)

/-! ### Concrete records, snapshots and responses used in witnesses and
counterexamples -/

/-- A status-0 (success) response carrying a cheque detail. -/
def respStatus0 : Resp :=
  { statusCode := 0, statusSeverity := "Info", statusMessage := "Status OK",
    rtype := rtCheckAddRs, hasDetail := true }

/-- A status-3001 (error) response carrying a cheque detail. -/
def respStatus3001 : Resp :=
  { statusCode := 3001, statusSeverity := "Error",
    statusMessage := "Invalid object reference", rtype := rtCheckAddRs,
    hasDetail := true }

/-- A response with a negative status code. -/
def respNegative : Resp :=
  { statusCode := -5, statusSeverity := "Error", statusMessage := "aborted",
    rtype := rtCheckAddRs, hasDetail := true }

/-- A well-formed standard transaction record with a negative subtotal. -/
def txDepositRec : Rec :=
  [("description", "Office chairs"),
   ("transaction date", "2024-01-15 10:30:00.123456-0700"),
   ("accounting vendor name", "Acme Supplies"), ("total dollars", "-157.50"),
   ("transaction subtotal dollars", "-150.00"), ("transaction tax dollars", "0"),
   ("gl code id", "A100")]

/-- A well-formed standard transaction record with a positive subtotal and a
non-zero tax. -/
def txChequeRec : Rec :=
  [("description", "Pens"),
   ("transaction date", "2024-01-15 10:30:00.123456-0700"),
   ("accounting vendor name", "Acme Supplies"), ("total dollars", "105.00"),
   ("transaction subtotal dollars", "100.00"), ("transaction tax dollars", "5.00"),
   ("gl code id", "A100")]

/-- A split-shaped standard record (blank primary `gl code id`) whose only
split slot has a non-blank amount but a blank `gl code id`, and a negative
subtotal. -/
def c5cexRec : Rec :=
  [("description", "Refund"),
   ("transaction date", "2024-01-15 10:30:00.123456-0700"),
   ("accounting vendor name", "Acme Supplies"), ("total dollars", "-150.00"),
   ("transaction subtotal dollars", "-150.00"), ("transaction tax dollars", "0"),
   ("gl code id", ""),
   ("line item 1 gl code id", ""), ("line item 1 description", ""),
   ("line item 1 amount", "40.00"), ("line item 1 tax amount", "0")]

/-- A split-shaped standard record whose only split slot has a non-blank
amount but a blank `gl code id`, and a positive subtotal. -/
def c3cexRec : Rec :=
  [("description", "Misc"),
   ("transaction date", "2024-01-15 10:30:00.123456-0700"),
   ("accounting vendor name", "Acme Supplies"), ("total dollars", "42.00"),
   ("transaction subtotal dollars", "40.00"), ("transaction tax dollars", "0"),
   ("gl code id", ""),
   ("line item 1 gl code id", ""), ("line item 1 description", ""),
   ("line item 1 amount", "40.00"), ("line item 1 tax amount", "0")]

/-- A split-shaped standard record with two slots, the first active and the
second blank. -/
def c3witRec : Rec :=
  [("description", "Mixed order"),
   ("transaction date", "2024-01-15 10:30:00.123456-0700"),
   ("accounting vendor name", "Acme Supplies"), ("total dollars", "45.00"),
   ("transaction subtotal dollars", "40.00"), ("transaction tax dollars", "5.00"),
   ("gl code id", ""),
   ("line item 1 gl code id", "A1"), ("line item 1 description", "Chairs"),
   ("line item 1 amount", "40.00"), ("line item 1 tax amount", "5.00"),
   ("line item 2 gl code id", ""), ("line item 2 description", ""),
   ("line item 2 amount", ""), ("line item 2 tax amount", "")]

/-- A well-formed reimbursement record with a non-zero tax. -/
def reimbBillRec : Rec :=
  [("report name", "March expenses"), ("description", " Team lunch "),
   ("expense date", "15/01/2024"), ("total", "112.00"), ("subtotal", "100.00"),
   ("tax", "12.00"), ("requester", "Bob Lee"), ("gl code id", "A100")]

/-- A reimbursement record whose `total` is not parseable as a number. -/
def c4reimbRec : Rec :=
  [("report name", "March expenses"), ("description", "Parking"),
   ("expense date", "15/01/2024"), ("total", "N/A"), ("subtotal", "100.00"),
   ("tax", "0"), ("requester", "Bob Lee"), ("gl code id", "A100")]

/-- A standard transaction record whose subtotal is not parseable as a
number. -/
def c4txRec : Rec :=
  [("description", "Broken row"),
   ("transaction date", "2024-01-15 10:30:00.123456-0700"),
   ("accounting vendor name", "Acme Supplies"), ("total dollars", "N/A"),
   ("transaction subtotal dollars", "N/A"), ("transaction tax dollars", "0"),
   ("gl code id", "A100")]

/-- A standard transaction record whose date does not match the expected
format. -/
def c9txRec : Rec :=
  [("description", "Bad date row"), ("transaction date", "garbage"),
   ("accounting vendor name", "Acme Supplies"), ("total dollars", "10.00"),
   ("transaction subtotal dollars", "10.00"), ("transaction tax dollars", "0"),
   ("gl code id", "A100")]

/-- A reimbursement record whose date does not match the expected format. -/
def c9reimbRec : Rec :=
  [("report name", "March expenses"), ("description", "Taxi"),
   ("expense date", "2024-01-15"), ("total", "20.00"), ("subtotal", "20.00"),
   ("tax", "0"), ("requester", "Bob Lee"), ("gl code id", "A100")]

/-- A standard record referencing the unknown payee `"Bob"`. -/
def c7rec : Rec :=
  [("description", "First"),
   ("transaction date", "2024-01-15 10:30:00.123456-0700"),
   ("accounting vendor name", "Bob"), ("total dollars", "10.00"),
   ("transaction subtotal dollars", "10.00"), ("transaction tax dollars", "0"),
   ("gl code id", "A100")]

/-- A second standard record referencing the same unknown payee `"Bob"`. -/
def c7rec2 : Rec :=
  [("description", "Second"),
   ("transaction date", "2024-01-16 11:00:00.000001+0000"),
   ("accounting vendor name", "Bob"), ("total dollars", "20.00"),
   ("transaction subtotal dollars", "20.00"), ("transaction tax dollars", "0"),
   ("gl code id", "A100")]

/-- A snapshot that knows account `"A100"` and payee `"Acme Supplies"`. -/
def snapAcme : Snapshot :=
  { validAccounts := ["A100"], validVendors := ["Acme Supplies"] }

/-- A snapshot that knows account `"A100"` and no payee. -/
def snapNoVendors : Snapshot :=
  { validAccounts := ["A100"], validVendors := [] }

/-! ## Helper lemmas -/

theorem foldl_and_respOk (rs : List Resp) (b : Bool) :
    rs.foldl (fun s r => s && respOk r) b = (b && rs.all respOk) := by
  induction rs generalizing b with
  | nil => simp
  | cons r t ih => simp [List.foldl_cons, List.all_cons, ih, Bool.and_assoc]

theorem WalkRs_some_eq_all (rs : List Resp) : WalkRs (some rs) = rs.all respOk := by
  simp [WalkRs, foldl_and_respOk]

theorem respOk_false_iff (r : Resp) :
    respOk r = false ↔
      (0 < r.statusCode ∨ (0 ≤ r.statusCode ∧ r.hasDetail = true ∧
        r.rtype ≠ rtDepositAddRs ∧ r.rtype ≠ rtCheckAddRs ∧ r.rtype ≠ rtBillAddRs)) := by
  unfold respOk walkOne
  split_ifs <;> simp_all

theorem walkOne_of_neg (r : Resp) (h : r.statusCode < 0) :
    walkOne r = (true, []) := by
  unfold walkOne
  rw [if_neg (by omega), if_neg (by omega)]
  rfl

/-! ## Claims -/

/-- C8: an empty batch (zero records after reading the source) makes the run
fail with a batch-level error before validation: the first access to
`transactions[0]` during batch-kind detection fails, the failure is caught
and reported by the run-level handler, and nothing is validated, built, or
submitted. -/
theorem claim_C8_empty_batch_fails_before_validation
    (snap : Snapshot) (submit : List Draft → Option (List Resp)) :
    ProcessFile snap submit [] =
      { fatal := some PyErr.indexError, keysOk := none, validated := none,
        drafts := [], count := 0, submitted := false, walkOk := none,
        offeredDelete := false } := rfl

/-- C10: the Reconciler marks the overall batch outcome failed exactly for
responses whose status code is strictly positive or whose detail has an
unrecognized type tag; a response with a negative status code is neither
reported nor counted as a failure and its detail is not walked; a missing
(`None`) response list yields overall success. -/
theorem claim_C10_reconciler_failure_conditions :
    WalkRs none = true ∧
    (∀ rs : List Resp, WalkRs (some rs) = false ↔
      ∃ r ∈ rs, 0 < r.statusCode ∨ (0 ≤ r.statusCode ∧ r.hasDetail = true ∧
        r.rtype ≠ rtDepositAddRs ∧ r.rtype ≠ rtCheckAddRs ∧ r.rtype ≠ rtBillAddRs)) ∧
    (∀ r : Resp, r.statusCode < 0 → respOk r = true ∧ walkEvents r = []) := by
  refine ⟨rfl, ?_, ?_⟩
  · intro rs
    rw [WalkRs_some_eq_all]
    have hall : rs.all respOk = false ↔ ∃ r ∈ rs, respOk r = false := by
      simp [List.all_eq_true]
    rw [hall]
    constructor
    · rintro ⟨r, hr, hfail⟩
      exact ⟨r, hr, (respOk_false_iff r).mp hfail⟩
    · rintro ⟨r, hr, hfail⟩
      exact ⟨r, hr, (respOk_false_iff r).mpr hfail⟩
  · intro r h
    exact ⟨by simp [respOk, walkOne_of_neg r h], by simp [walkEvents, walkOne_of_neg r h]⟩

/-- Witness for C10 at a concrete response with a negative status code. -/
theorem claim_C10_witness :
    respOk respNegative = true ∧ walkEvents respNegative = [] :=
  claim_C10_reconciler_failure_conditions.2.2 respNegative (by decide)

/-- C2: the Reconciler's overall return value is true iff every individual
per-response outcome succeeded; a two-response batch with one status-0
response and one status-3001 response yields one success outcome, one
failure outcome, and an overall batch failure; and the overall boolean is
exactly what gates the caller's offer to delete the source file. -/
theorem claim_C2_batch_success_iff_all_outcomes_succeed :
    (∀ rs : List Resp, WalkRs (some rs) = rs.all respOk) ∧
    (respOk respStatus0 = true ∧ respOk respStatus3001 = false ∧
      WalkRs (some [respStatus0, respStatus3001]) = false) ∧
    (∀ (snap : Snapshot) (submit : List Draft → Option (List Resp))
        (raw : List Rec),
      (ProcessFile snap submit raw).offeredDelete =
        ((ProcessFile snap submit raw).walkOk.getD false)) := by
  refine ⟨WalkRs_some_eq_all, by decide, ?_⟩
  intro snap submit raw
  unfold ProcessFile ProcessFileFrom
  rcases raw.map KeysLower with _ | ⟨first, rest⟩
  · rfl
  · dsimp only
    split
    · rfl
    · split
      · rfl
      · split <;> rfl

/-- Unfolding of `buildTx` when the date and both numeric fields parse and the
line-item expansion yields `items`. -/
theorem buildTx_eq_of_parses (maxSplits : Option Nat) (t : Rec) (sub tax : ℚ)
    (items : List SrcItem)
    (hdate : txDateOk (dget t "transaction date") = true)
    (hsub : pyFloat? (dget t "transaction subtotal dollars") = some sub)
    (htax : pyFloat? (dget t "transaction tax dollars") = some tax)
    (hitems : lineItemsOf maxSplits t sub tax = .ok items) :
    buildTx maxSplits t = .ok (
      if items.isEmpty then none
      else if sub < 0 then
        some (Draft.deposit "Float Financial" (dget t "transaction date")
          (dget t "description")
          [{ account := dget t "gl code id", amount := -sub, memo := "" }])
      else
        some (Draft.cheque "Float Financial" (dget t "transaction date")
          (dget t "accounting vendor name") (dget t "description")
          (items.map itemLine ++ (if tax ≠ 0 then [taxLine tax] else [])))) := by
  unfold buildTx pyFloatE
  rw [hdate, hsub, htax]
  dsimp only
  rw [hitems]
  dsimp only
  by_cases h1 : items.isEmpty <;> by_cases h2 : sub < 0 <;> simp [h1, h2]

/-- On the non-split path (no truthy `maxSplits`, or non-blank primary
`gl code id`) the line items are the single primary item. -/
theorem lineItemsOf_nonsplit (maxSplits : Option Nat) (t : Rec) (sub tax : ℚ)
    (h : truthy maxSplits = false ∨ dget t "gl code id" ≠ "") :
    lineItemsOf maxSplits t sub tax =
      .ok [{ description := dget t "description", total := sub, tax := tax,
             glcode := dget t "gl code id" }] := by
  unfold lineItemsOf
  rcases h with h | h
  · rw [if_pos (by simp [h])]
  · rw [if_pos (by simp [strGtEmpty, h])]

/-- C5 (amended): for every standard non-reimbursement record on the
non-split path (batch without truthy `maxSplits`, or non-blank primary
`gl code id`) whose parsed net total is negative, build produces a Deposit
draft with exactly one line item whose account is the record's referenced
`gl code id` and whose amount is the absolute value of the input total; no
split expansion applies. -/
theorem claim_C5_negative_total_builds_deposit
    (maxSplits : Option Nat) (t : Rec) (sub tax : ℚ)
    (hdate : txDateOk (dget t "transaction date") = true)
    (hsub : pyFloat? (dget t "transaction subtotal dollars") = some sub)
    (htax : pyFloat? (dget t "transaction tax dollars") = some tax)
    (hneg : sub < 0)
    (hnosplit : truthy maxSplits = false ∨ dget t "gl code id" ≠ "") :
    buildTx maxSplits t = .ok (some (Draft.deposit "Float Financial"
      (dget t "transaction date") (dget t "description")
      [{ account := dget t "gl code id", amount := |sub|, memo := "" }])) := by
  rw [buildTx_eq_of_parses maxSplits t sub tax _ hdate hsub htax
    (lineItemsOf_nonsplit maxSplits t sub tax hnosplit)]
  simp [abs_of_neg hneg, hneg]

/-- Witness for C5 at a concrete record with subtotal `-150.00`. -/
theorem claim_C5_witness :
    buildTx none txDepositRec = .ok (some (Draft.deposit "Float Financial"
      "2024-01-15 10:30:00.123456-0700" "Office chairs"
      [{ account := "A100", amount := |(-150 : ℚ)|, memo := "" }])) :=
  claim_C5_negative_total_builds_deposit none txDepositRec (-150) 0
    (by decide) (by decide) (by decide) (by decide) (Or.inl (by decide))

/-- Counterexample for C5 as stated: `c5cexRec` is a standard
non-reimbursement record whose net total parses to `-150 < 0`, yet in a
batch with `maxSplits = 1` build produces no Deposit draft at all — the
record takes the split path (blank primary `gl code id`), its only slot has
a blank `gl code id`, so the empty-line-items check skips the record before
the deposit classification is reached. -/
theorem claim_C5_counterexample :
    pyFloat? (dget c5cexRec "transaction subtotal dollars") = some (-150) ∧
    ((-150 : ℚ) < 0) ∧
    dget c5cexRec "line item 1 amount" = "40.00" ∧
    buildTx (some 1) c5cexRec = .ok none := by decide

/-- C6: in every built Disbursement (cheque) and Bill draft, the line items
are exactly the record's own line items followed by one synthesized tax
line — against the fixed account `"GST Accounts Receivable"` with the fixed
memo `"Half of the GST"` and the record's aggregate tax as amount — when
that aggregate tax is non-zero, and by no tax line when it is zero. -/
theorem claim_C6_tax_line_appended :
    (∀ (maxSplits : Option Nat) (t : Rec) (sub tax : ℚ) (items : List SrcItem),
      txDateOk (dget t "transaction date") = true →
      pyFloat? (dget t "transaction subtotal dollars") = some sub →
      pyFloat? (dget t "transaction tax dollars") = some tax →
      lineItemsOf maxSplits t sub tax = .ok items → items ≠ [] → 0 ≤ sub →
      buildTx maxSplits t = .ok (some (Draft.cheque "Float Financial"
        (dget t "transaction date") (dget t "accounting vendor name")
        (dget t "description")
        (items.map itemLine ++ (if tax ≠ 0 then [taxLine tax] else []))))) ∧
    (∀ (t : Rec) (tot sub tax : ℚ),
      reimbDateOk (dget t "expense date") = true →
      getFloatD t "total" = .ok tot →
      getFloatD t "subtotal" = .ok sub →
      getFloatD t "tax" = .ok tax →
      buildReimb t = .ok (some (Draft.bill "Accounts Payable"
        (dget t "expense date") (dget t "requester")
        (pyStrip (dget t "description"))
        ([{ account := dget t "gl code id", amount := sub,
            memo := pyStrip (dget t "description") }] ++
          (if tax ≠ 0 then [taxLine tax] else []))))) := by
  constructor
  · intro ms t sub tax items hdate hsub htax hitems hne hpos
    rw [buildTx_eq_of_parses ms t sub tax items hdate hsub htax hitems]
    simp [hne, not_lt.mpr hpos]
  · intro t tot sub tax hdate htot hsub htax
    unfold buildReimb
    rw [hdate]
    dsimp only
    rw [htot, hsub, htax]
    rfl

/-- Witness for C6: a standard record with tax `5.00` and a reimbursement
record with tax `12.00`, each yielding exactly one appended tax line. -/
theorem claim_C6_witness :
    buildTx none txChequeRec = .ok (some (Draft.cheque "Float Financial"
      "2024-01-15 10:30:00.123456-0700" "Acme Supplies" "Pens"
      [{ account := "A100", amount := 100, memo := "Pens" },
       { account := "GST Accounts Receivable", amount := 5,
         memo := "Half of the GST" }])) ∧
    buildReimb reimbBillRec = .ok (some (Draft.bill "Accounts Payable"
      "15/01/2024" "Bob Lee" "Team lunch"
      [{ account := "A100", amount := 100, memo := "Team lunch" },
       { account := "GST Accounts Receivable", amount := 12,
         memo := "Half of the GST" }])) := by
  constructor
  · have h := claim_C6_tax_line_appended.1 none txChequeRec 100 5
      [{ description := "Pens", total := 100, tax := 5, glcode := "A100" }]
      (by decide) (by decide) (by decide) (by decide) (by decide) (by decide)
    rw [h]
    decide
  · have h := claim_C6_tax_line_appended.2 reimbBillRec 112 100 12
      (by decide) (by decide) (by decide) (by decide)
    rw [h]
    decide

/-- C4 (amended): in a reimbursement batch, a record whose `total`,
`subtotal` or `tax` field is not parseable as a number is skipped only:
build yields a skip (no draft, no count increment) and processing continues
with the remaining records unchanged.  (In a standard batch such a failure
aborts the whole run instead — see the counterexample.) -/
theorem claim_C4_reimb_parse_failure_skips_record
    (t : Rec) (rest : List Rec)
    (hdate : reimbDateOk (dget t "expense date") = true)
    (hbad : getFloatD t "total" = .error .valueError ∨
            getFloatD t "subtotal" = .error .valueError ∨
            getFloatD t "tax" = .error .valueError) :
    buildReimb t = .ok none ∧
    ProcessReimbursements (t :: rest) = ProcessReimbursements rest := by
  have hb : buildReimb t = .ok none := by
    unfold buildReimb
    rw [hdate]
    dsimp only
    rcases h1 : getFloatD t "total" with e1 | v1 <;>
      rcases h2 : getFloatD t "subtotal" with e2 | v2 <;>
        rcases h3 : getFloatD t "tax" with e3 | v3 <;>
          simp_all
  exact ⟨hb, by simp [ProcessReimbursements, processLoop, hb]⟩

/-- Witness for C4 at a reimbursement record whose `total` is `"N/A"`. -/
theorem claim_C4_witness :
    buildReimb c4reimbRec = .ok none ∧
    ProcessReimbursements [c4reimbRec] = ProcessReimbursements [] :=
  claim_C4_reimb_parse_failure_skips_record c4reimbRec [] (by decide)
    (Or.inl (by decide))

/-- Counterexample for C4 as stated: in a standard batch, a record whose
subtotal is `"N/A"` is not skipped — the `float` call (which has no
try/except in `ProcessTransactions`) raises an uncaught `ValueError`, the
whole run aborts, the following well-formed record is never built, and
nothing is submitted. -/
theorem claim_C4_counterexample :
    ProcessTransactions none [c4txRec, txDepositRec] = .error .valueError ∧
    ProcessFile snapAcme (fun _ => none) [c4txRec, txDepositRec] =
      { fatal := some PyErr.valueError, keysOk := some true,
        validated := some true, drafts := [], count := 0, submitted := false,
        walkOk := none, offeredDelete := false } := by decide

/-- C9 (amended): a record whose date field does not match the batch-kind
fixed format is not merely logged and skipped — the date parse raises an
uncaught error that aborts the whole processing function, so no remaining
record of the batch is built. -/
theorem claim_C9_bad_date_aborts_processing :
    (∀ (maxSplits : Option Nat) (t : Rec) (rest : List Rec),
      txDateOk (dget t "transaction date") = false →
      ProcessTransactions maxSplits (t :: rest) = .error .valueError) ∧
    (∀ (t : Rec) (rest : List Rec),
      reimbDateOk (dget t "expense date") = false →
      ProcessReimbursements (t :: rest) = .error .valueError) := by
  constructor
  · intro ms t rest hdate
    have hb : buildTx ms t = .error .valueError := by
      unfold buildTx
      rw [hdate]
      rfl
    simp [ProcessTransactions, processLoop, hb]
  · intro t rest hdate
    have hb : buildReimb t = .error .valueError := by
      unfold buildReimb
      rw [hdate]
      rfl
    simp [ProcessReimbursements, processLoop, hb]

/-- Witness for C9 at concrete records of both batch kinds with malformed
dates. -/
theorem claim_C9_witness :
    ProcessTransactions none [c9txRec] = .error .valueError ∧
    ProcessReimbursements [c9reimbRec] = .error .valueError :=
  ⟨claim_C9_bad_date_aborts_processing.1 none c9txRec [] (by decide),
   claim_C9_bad_date_aborts_processing.2 c9reimbRec [] (by decide)⟩

/-- Counterexample for C9 as stated: a standard batch whose first record has
date `"garbage"` does not continue with the remaining records — the whole
run aborts with the uncaught error, the well-formed second record is never
built, and nothing is submitted. -/
theorem claim_C9_counterexample :
    ProcessFile snapAcme (fun _ => none) [c9txRec, txDepositRec] =
      { fatal := some PyErr.valueError, keysOk := some true,
        validated := some true, drafts := [], count := 0, submitted := false,
        walkOk := none, offeredDelete := false } := by decide

/-- The account-check violations contain no `badVendor` entry. -/
theorem count_badVendor_accountViols (snap : Snapshot) (reimbursement : Bool)
    (maxSplits : Option Nat) (t : Rec) (f p : String) :
    (accountViols snap reimbursement maxSplits t).count (Viol.badVendor f p) = 0 := by
  rw [List.count_eq_zero]
  intro hmem
  unfold accountViols at hmem
  split at hmem
  · rw [List.mem_flatMap] at hmem
    obtain ⟨i, _, hvi⟩ := hmem
    split at hvi <;> simp at hvi
  · split at hmem <;> simp at hmem

/-- The vendor-check violations, counted: one `badVendor` entry for the
unknown payee `p` exactly when the record's payee is `p`. -/
theorem count_badVendor_vendorViols (snap : Snapshot) (reimbursement : Bool)
    (t : Rec) (p : String) (hp : snap.validVendors.contains p = false) :
    (vendorViols snap reimbursement t).count
        (Viol.badVendor (vendorField reimbursement) p) =
      if recPayee reimbursement t = p then 1 else 0 := by
  unfold vendorViols
  by_cases h : recPayee reimbursement t = p
  · rw [h, hp]
    simp [h]
  · by_cases hv : recPayee reimbursement t ∈ snap.validVendors
    · simp [hv, h]
    · simp [hv, List.count_cons, h, Ne.symm h]

/-- One record's violations, counted: one `badVendor` entry for the unknown
payee `p` exactly when the record's payee is `p`. -/
theorem count_badVendor_recViols (snap : Snapshot) (reimbursement : Bool)
    (maxSplits : Option Nat) (t : Rec) (p : String)
    (hp : snap.validVendors.contains p = false) :
    (recViols snap reimbursement maxSplits t).count
        (Viol.badVendor (vendorField reimbursement) p) =
      if recPayee reimbursement t = p then 1 else 0 := by
  unfold recViols
  rw [List.count_append, count_badVendor_accountViols,
    count_badVendor_vendorViols snap reimbursement t p hp]
  simp

/-- C7 (amended): for every batch containing at least one payee name absent
from the snapshot's valid payee names, the Validator's violation list
contains one violation for that payee *per record that references it* (one
line per occurrence, not one per distinct bad value). -/
theorem claim_C7_one_violation_per_occurrence
    (snap : Snapshot) (ts : List Rec) (reimbursement : Bool)
    (maxSplits : Option Nat) (p : String)
    (hp : snap.validVendors.contains p = false) :
    (PreCheckViols snap ts reimbursement maxSplits).count
        (Viol.badVendor (vendorField reimbursement) p) =
      (ts.filter (fun t => recPayee reimbursement t == p)).length := by
  induction ts with
  | nil => rfl
  | cons t ts ih =>
      unfold PreCheckViols at *
      rw [List.flatMap_cons, List.count_append, ih,
        count_badVendor_recViols snap reimbursement maxSplits t p hp]
      by_cases h : recPayee reimbursement t = p
      · simp [List.filter_cons, h]
        omega
      · simp [List.filter_cons, h]

/-- Witness for C7 at a two-record batch both referencing the unknown payee
`"Bob"`: the violation count equals the occurrence count. -/
theorem claim_C7_witness :
    (PreCheckViols snapNoVendors [c7rec, c7rec2] false none).count
        (Viol.badVendor (vendorField false) "Bob") =
      ([c7rec, c7rec2].filter (fun t => recPayee false t == "Bob")).length :=
  claim_C7_one_violation_per_occurrence snapNoVendors [c7rec, c7rec2] false none
    "Bob" (by decide)

/-- Counterexample for C7 as stated: two records referencing the same unknown
payee `"Bob"` produce two `badVendor "Bob"` violations, not exactly one. -/
theorem claim_C7_counterexample :
    PreCheckViols snapNoVendors [c7rec, c7rec2] false none =
      [Viol.badVendor "accounting vendor name" "Bob",
       Viol.badVendor "accounting vendor name" "Bob"] ∧
    (PreCheckViols snapNoVendors [c7rec, c7rec2] false none).count
        (Viol.badVendor "accounting vendor name" "Bob") = 2 := by decide

/-- The split loop, characterized: over slots `1..n`, the collected items are
exactly those of the slots whose `gl code id` is non-blank, in slot order,
each carrying its parsed amount, its description, and tax `0`. -/
theorem splitItems_eq (t : Rec) (n : Nat) (gl ds : Nat → String) (av : Nat → ℚ)
    (hgl : ∀ i ∈ List.range' 1 n, dget t (splitKey i "gl code id") = gl i)
    (hds : ∀ i ∈ List.range' 1 n, dget t (splitKey i "description") = ds i)
    (hamt : ∀ i ∈ List.range' 1 n, gl i ≠ "" →
      getFloatD t (splitKey i "amount") = .ok (av i)) :
    splitItems t n = .ok ((activeSlots gl n).map
      (fun i => { description := ds i, total := av i, tax := 0, glcode := gl i })) := by
  induction n with
  | zero => rfl
  | succ n ih =>
      have hmem : ∀ i ∈ List.range' 1 n, i ∈ List.range' 1 (n + 1) := by
        intro i hi
        rw [List.mem_range'_1] at *
        omega
      have ihn := ih (fun i hi => hgl i (hmem i hi)) (fun i hi => hds i (hmem i hi))
        (fun i hi => hamt i (hmem i hi))
      have hself : (n + 1) ∈ List.range' 1 (n + 1) := by
        rw [List.mem_range'_1]
        omega
      have hrange : List.range' 1 (n + 1) = List.range' 1 n ++ [n + 1] := by
        rw [List.range'_concat]
        simp [Nat.add_comm]
      unfold splitItems
      rw [ihn]
      dsimp only
      rw [hgl (n + 1) hself]
      by_cases hg : gl (n + 1) = ""
      · simp [hg, strGtEmpty, activeSlots, hrange, List.filter_append]
      · simp only [strGtEmpty, ne_eq, hg, not_false_eq_true, bne_iff_ne, if_true,
          hamt (n + 1) hself hg, hds (n + 1) hself, hgl (n + 1) hself]
        simp [activeSlots, hrange, List.filter_append, hg]

/-- C3 (amended): for every standard record of a batch with truthy
`maxSplits = n` that takes the split path (blank primary `gl code id`),
where the slots of `1..n` with a non-blank `gl code id` field are the active
ones and every active slot's amount parses, build produces a Disbursement
(cheque) draft whose line items are exactly one per active slot in slot
order — each with that slot's account, parsed amount and description — plus
one synthesized tax line when the aggregate tax is non-zero; a slot with a
blank `gl code id` contributes no line item, and the non-tax line-item count
equals the number of active slots. -/
theorem claim_C3_split_expansion
    (n : Nat) (t : Rec) (sub tax : ℚ) (gl ds : Nat → String) (av : Nat → ℚ)
    (hn : truthy (some n) = true)
    (hdate : txDateOk (dget t "transaction date") = true)
    (hmain : dget t "gl code id" = "")
    (hsub : pyFloat? (dget t "transaction subtotal dollars") = some sub)
    (hpos : 0 ≤ sub)
    (htax : pyFloat? (dget t "transaction tax dollars") = some tax)
    (hgl : ∀ i ∈ List.range' 1 n, dget t (splitKey i "gl code id") = gl i)
    (hds : ∀ i ∈ List.range' 1 n, dget t (splitKey i "description") = ds i)
    (hamt : ∀ i ∈ List.range' 1 n, gl i ≠ "" →
      getFloatD t (splitKey i "amount") = .ok (av i))
    (hne : ∃ i ∈ List.range' 1 n, gl i ≠ "") :
    buildTx (some n) t = .ok (some (Draft.cheque "Float Financial"
      (dget t "transaction date") (dget t "accounting vendor name")
      (dget t "description")
      ((activeSlots gl n).map
          (fun i => { account := gl i, amount := av i, memo := ds i }) ++
        (if tax ≠ 0 then [taxLine tax] else [])))) ∧
    ((activeSlots gl n).map
        (fun i => ({ account := gl i, amount := av i, memo := ds i } : LineItem)) ++
      (if tax ≠ 0 then [taxLine tax] else [])).length =
      (activeSlots gl n).length + (if tax ≠ 0 then 1 else 0) := by
  have hitems : lineItemsOf (some n) t sub tax = .ok ((activeSlots gl n).map
      (fun i => { description := ds i, total := av i, tax := 0, glcode := gl i })) := by
    unfold lineItemsOf
    rw [if_neg (by simp [hn, strGtEmpty, hmain])]
    exact splitItems_eq t n gl ds av hgl hds hamt
  have hne2 : (activeSlots gl n).map
      (fun i =>
        ({ description := ds i, total := av i, tax := 0, glcode := gl i } :
          SrcItem)) ≠ [] := by
    obtain ⟨i, hi, hgi⟩ := hne
    have : i ∈ activeSlots gl n := by
      unfold activeSlots
      rw [List.mem_filter]
      exact ⟨hi, by simpa using hgi⟩
    simp only [ne_eq, List.map_eq_nil_iff]
    exact List.ne_nil_of_mem this
  constructor
  · rw [buildTx_eq_of_parses (some n) t sub tax _ hdate hsub htax hitems]
    rw [if_neg (by simpa using hne2), if_neg (not_lt.mpr hpos)]
    simp [List.map_map, itemLine, Function.comp]
  · rw [List.length_append, List.length_map]
    by_cases h : tax = 0 <;> simp [h]

/-- Witness for C3 at a two-slot record whose first slot is active and second
slot blank: exactly one line item plus the tax line. -/
theorem claim_C3_witness :
    buildTx (some 2) c3witRec = .ok (some (Draft.cheque "Float Financial"
      "2024-01-15 10:30:00.123456-0700" "Acme Supplies" "Mixed order"
      [{ account := "A1", amount := 40, memo := "Chairs" },
       { account := "GST Accounts Receivable", amount := 5,
         memo := "Half of the GST" }])) := by
  have h := claim_C3_split_expansion 2 c3witRec 40 5
    (fun i => if i = 1 then "A1" else "") (fun i => if i = 1 then "Chairs" else "")
    (fun i => if i = 1 then 40 else 0)
    (by decide) (by decide) (by decide) (by decide) (by decide) (by decide)
    (by decide) (by decide) (by decide) (by decide)
  rw [h.1]
  decide

/-- Counterexample for C3 as stated: `c3cexRec` in a `maxSplits = 1` batch has
exactly one split slot with a non-blank amount field, yet build produces no
Disbursement draft with one line item — the code keys the expansion on the
slot's `gl code id`, which is blank here, so the expansion is empty and the
record is skipped. -/
theorem claim_C3_counterexample :
    dget c3cexRec "line item 1 amount" = "40.00" ∧
    dget c3cexRec "line item 1 gl code id" = "" ∧
    buildTx (some 1) c3cexRec = .ok none := by decide

/-- An unknown payee makes the vendor check log a violation. -/
theorem vendorViols_ne_nil (snap : Snapshot) (reimbursement : Bool) (t : Rec)
    (h : snap.validVendors.contains (recPayee reimbursement t) = false) :
    vendorViols snap reimbursement t ≠ [] := by
  unfold vendorViols
  have : recPayee reimbursement t ∉ snap.validVendors := by simpa using h
  simp [this]

/-- An unknown checked account makes the account checks log a violation. -/
theorem accountViols_ne_nil (snap : Snapshot) (reimbursement : Bool)
    (maxSplits : Option Nat) (t : Rec)
    (h : ∃ a ∈ checkedAccounts maxSplits t,
      snap.validAccounts.contains a = false) :
    accountViols snap reimbursement maxSplits t ≠ [] := by
  obtain ⟨a, ha, hbad⟩ := h
  unfold checkedAccounts at ha
  unfold accountViols
  by_cases hsp : (truthy maxSplits && dget t "line item 1 amount" != "") = true
  · rw [if_pos hsp] at ha ⊢
    rw [List.mem_filterMap] at ha
    obtain ⟨i, hi, hcond⟩ := ha
    refine List.ne_nil_of_mem (l := _)
      (a := Viol.badSplitAccount (dget t (splitKey i "gl code id")) i
        (recPayee reimbursement t)) (List.mem_flatMap.mpr ⟨i, hi, ?_⟩)
    split at hcond
    · have haeq : dget t (splitKey i "gl code id") = a :=
        Option.some.inj hcond
      simp_all
    · simp at hcond
  · rw [if_neg hsp] at ha ⊢
    rw [List.mem_singleton] at ha
    rw [ha] at hbad
    have : dget t "gl code id" ∉ snap.validAccounts := by simpa using hbad
    simp [this]

/-- A batch containing a record with an unknown payee or an unknown checked
account fails `PreCheck`. -/
theorem PreCheck_false_of_bad (snap : Snapshot) (ts : List Rec)
    (reimbursement : Bool) (maxSplits : Option Nat)
    (hbad : ∃ t ∈ ts,
      snap.validVendors.contains (recPayee reimbursement t) = false ∨
      ∃ a ∈ checkedAccounts maxSplits t,
        snap.validAccounts.contains a = false) :
    PreCheck snap ts reimbursement maxSplits = false := by
  obtain ⟨t, ht, hb⟩ := hbad
  have hrec : recViols snap reimbursement maxSplits t ≠ [] := by
    unfold recViols
    intro hnil
    rw [List.append_eq_nil] at hnil
    rcases hb with h | h
    · exact vendorViols_ne_nil snap reimbursement t h hnil.1
    · exact accountViols_ne_nil snap reimbursement maxSplits t h hnil.2
  obtain ⟨v, hv⟩ := List.exists_mem_of_ne_nil _ hrec
  unfold PreCheck
  rw [show ∀ l : List Viol, l.isEmpty = false ↔ l ≠ [] from
    fun l => by simp [List.isEmpty_iff]]
  exact List.ne_nil_of_mem (List.mem_flatMap.mpr ⟨t, ht, hv⟩)

/-- C1: if a batch whose required keys verify references at least one payee or
account identifier (in the sense `PreCheck` checks them) that is absent from
the snapshot, validation fails and the run stops there: no transaction draft
is built, the submission call is never made, and no partial subset is
submitted. -/
theorem claim_C1_invalid_reference_aborts_batch
    (snap : Snapshot) (submit : List Draft → Option (List Resp)) (raw : List Rec)
    (first : Rec) (rest : List Rec)
    (hts : raw.map KeysLower = first :: rest)
    (hkeys : VerifyCSVKeys (first :: rest) (batchReimb first)
      (batchMaxSplits first) = true)
    (hbad : ∃ t ∈ first :: rest,
      snap.validVendors.contains (recPayee (batchReimb first) t) = false ∨
      ∃ a ∈ checkedAccounts (batchMaxSplits first) t,
        snap.validAccounts.contains a = false) :
    PreCheck snap (first :: rest) (batchReimb first) (batchMaxSplits first) = false ∧
    ProcessFile snap submit raw =
      { fatal := none, keysOk := some true, validated := some false,
        drafts := [], count := 0, submitted := false, walkOk := none,
        offeredDelete := false } := by
  have hpc := PreCheck_false_of_bad snap (first :: rest) (batchReimb first)
    (batchMaxSplits first) hbad
  refine ⟨hpc, ?_⟩
  unfold ProcessFile ProcessFileFrom
  rw [hts]
  dsimp only
  rw [hkeys, hpc]
  rfl

/-- Witness for C1: a one-record standard batch whose payee `"Bob"` is absent
from the snapshot fails validation and nothing is built or submitted. -/
theorem claim_C1_witness :
    PreCheck snapNoVendors [c7rec] (batchReimb c7rec) (batchMaxSplits c7rec) = false ∧
    ProcessFile snapNoVendors (fun _ => none) [c7rec] =
      { fatal := none, keysOk := some true, validated := some false,
        drafts := [], count := 0, submitted := false, walkOk := none,
        offeredDelete := false } :=
  claim_C1_invalid_reference_aborts_batch snapNoVendors (fun _ => none) [c7rec]
    c7rec [] (by decide) (by decide) ⟨c7rec, by decide, Or.inl (by decide)⟩
